import Mathlib

/-!
Verification of the rust-synth audio core against its specification.

The Rust source is shallowly embedded: every `f32` is modelled as a rational
number `ℚ` (real-valued semantics of the arithmetic the code performs), the
transcendental library calls the code makes (`sin`, `powf`) and the `f32`
constant `PI` are model parameters collected in a `Trans` record, and each
`&mut self` method becomes a pure function returning the updated structure.
`tanh` (used only by `soft_clip`) is modelled by `Real.tanh` on `ℝ`.
-/

namespace RustSynth

/-- Model parameters for the transcendental `f32` operations the hot path
calls: `sinQ x` models `x.sin()`, `pow2Q x` models `2.0f32.powf(x)`, and
`piQ` models the constant `std::f32::consts::PI`. -/
structure Trans where
  sinQ : ℚ → ℚ
  pow2Q : ℚ → ℚ
  piQ : ℚ

/-- The exact rational value of the `f32` constant `std::f32::consts::PI`
(bit pattern 0x40490FDB, i.e. 13176795 / 2^22). -/
def piF32 : ℚ := 13176795 / 4194304

/-- `src/structs/envelope.rs`: `enum EnvelopeState`. -/
inductive EnvelopeState where
  | Idle
  | Attack
  | Decay
  | Sustain
  | Release
deriving DecidableEq, Repr

/-- `src/structs/envelope.rs`: `struct Envelope`. -/
structure Envelope where
  sample_rate : ℚ
  state : EnvelopeState
  current_level : ℚ
  attack_time : ℚ
  decay_time : ℚ
  sustain_level : ℚ
  release_time : ℚ
  velocity : ℚ
  attack_increment : ℚ
  decay_increment : ℚ
  release_increment : ℚ
deriving Repr

/-- `Envelope::new(sample_rate)`. -/
def Envelope.new (sample_rate : ℚ) : Envelope where
  sample_rate := sample_rate
  state := EnvelopeState.Idle
  current_level := 0
  attack_time := 1/100
  decay_time := 1/10
  sustain_level := 7/10
  release_time := 3/10
  velocity := 1
  attack_increment := 0
  decay_increment := 0
  release_increment := 0

/-- `Envelope::recalculate_increments`. -/
def Envelope.recalculate_increments (e : Envelope) : Envelope :=
  { e with
    attack_increment := 1 / (e.attack_time * e.sample_rate)
    decay_increment := (1 - e.sustain_level) / (e.decay_time * e.sample_rate)
    release_increment := e.sustain_level / (e.release_time * e.sample_rate) }

/-- `Envelope::set_adsr(attack, decay, sustain, release)`. -/
def Envelope.set_adsr (e : Envelope) (attack decay sustain release : ℚ) : Envelope :=
  Envelope.recalculate_increments
    { e with
      attack_time := attack
      decay_time := decay
      sustain_level := sustain
      release_time := release }

/-- `Envelope::set_velocity(velocity)`. -/
def Envelope.set_velocity (e : Envelope) (velocity : ℚ) : Envelope :=
  Envelope.recalculate_increments { e with velocity := velocity }

/-- `Envelope::note_on`. -/
def Envelope.note_on (e : Envelope) : Envelope :=
  Envelope.recalculate_increments { e with state := EnvelopeState.Attack }

/-- `Envelope::note_off`. -/
def Envelope.note_off (e : Envelope) : Envelope :=
  if e.state ≠ EnvelopeState.Idle then { e with state := EnvelopeState.Release } else e

/-- `Envelope::next_sample`: returns the produced sample together with the
updated envelope. -/
def Envelope.next_sample (e : Envelope) : ℚ × Envelope :=
  match e.state with
  | EnvelopeState.Idle => (0, e)
  | EnvelopeState.Attack =>
      let l := e.current_level + e.attack_increment
      if l ≥ 1 then
        let e' := { e with current_level := 1, state := EnvelopeState.Decay }
        (e'.current_level * e'.velocity, e')
      else
        let e' := { e with current_level := l }
        (e'.current_level * e'.velocity, e')
  | EnvelopeState.Decay =>
      let l := e.current_level - e.decay_increment
      if l ≤ e.sustain_level then
        let e' := { e with current_level := e.sustain_level, state := EnvelopeState.Sustain }
        (e'.current_level * e'.velocity, e')
      else
        let e' := { e with current_level := l }
        (e'.current_level * e'.velocity, e')
  | EnvelopeState.Sustain =>
      (e.current_level * e.velocity, e)
  | EnvelopeState.Release =>
      let l := e.current_level - e.release_increment
      if l ≤ 0 then
        let e' := { e with current_level := 0, state := EnvelopeState.Idle }
        (e'.current_level * e'.velocity, e')
      else
        let e' := { e with current_level := l }
        (e'.current_level * e'.velocity, e')

/-- `Envelope::is_finished`. -/
def Envelope.is_finished (e : Envelope) : Bool :=
  e.state = EnvelopeState.Idle

/-- `src/gui.rs`: `enum WaveType`. -/
inductive WaveType where
  | Sine
  | Square
  | Triangle
  | Sawtooth
deriving DecidableEq, Repr

/-- Rust `%` on `f32` with divisor `1.0` (remainder with the sign of the
dividend): `x % 1.0 = x - trunc(x)`. -/
def fmodOne (x : ℚ) : ℚ :=
  x - (if x ≥ 0 then (⌊x⌋ : ℚ) else (⌈x⌉ : ℚ))

/-- `OVERSAMPLING` constant (same value in both oscillator modules). -/
def OVERSAMPLING : ℚ := 4

/-- `src/audio/filters.rs`: `struct LowPassFilter` (structurally identical to
the `LowPassFilter` in `src/structs/note.rs`). -/
structure LowPassFilter where
  prev_sample : ℚ
  alpha : ℚ
deriving Repr

/-- `LowPassFilter::new(cutoff_freq, sample_rate)`; `piQ` models the `f32`
constant `PI` used by the source. -/
def LowPassFilter.new (piQ cutoff_freq sample_rate : ℚ) : LowPassFilter :=
  let rc := 1 / (2 * piQ * cutoff_freq)
  let dt := 1 / sample_rate
  { prev_sample := 0, alpha := dt / (rc + dt) }

/-- `LowPassFilter::process(input)`: returns the output sample and the
updated filter. -/
def LowPassFilter.process (f : LowPassFilter) (input : ℚ) : ℚ × LowPassFilter :=
  let p := f.prev_sample + f.alpha * (input - f.prev_sample)
  (p, { f with prev_sample := p })

/-- `LowPassFilter::set_cutoff(cutoff_freq, sample_rate)`. -/
def LowPassFilter.set_cutoff (f : LowPassFilter) (piQ cutoff_freq sample_rate : ℚ) :
    LowPassFilter :=
  let rc := 1 / (2 * piQ * cutoff_freq)
  let dt := 1 / sample_rate
  { f with alpha := dt / (rc + dt) }

/-- `Oscillator::poly_blep(t, dt)` (identical in `src/structs/note.rs` and
`src/audio/oscillator.rs`). -/
def poly_blep (t dt : ℚ) : ℚ :=
  if t < dt then
    let t' := t / dt
    2 * t' - t' * t' - 1
  else if t > 1 - dt then
    let t' := (t - 1) / dt
    t' * t' + 2 * t' + 1
  else 0

/-- `Oscillator::get_bandlimited_square(phase_norm, phase_inc)`. -/
def get_bandlimited_square (phase_norm phase_inc : ℚ) : ℚ :=
  (if phase_norm < 1/2 then (1:ℚ) else -1)
    + poly_blep phase_norm phase_inc
    - poly_blep (fmodOne (phase_norm + 1/2)) phase_inc

/-- `Oscillator::get_bandlimited_saw(phase_norm, phase_inc)`. -/
def get_bandlimited_saw (phase_norm phase_inc : ℚ) : ℚ :=
  2 * phase_norm - 1 - poly_blep phase_norm phase_inc

/-- `Oscillator::get_bandlimited_triangle(phase_norm)`. -/
def get_bandlimited_triangle (phase_norm : ℚ) : ℚ :=
  let phase_quad := phase_norm * 4
  if phase_quad < 1 then phase_quad
  else if phase_quad < 2 then 2 - phase_quad
  else if phase_quad < 3 then phase_quad - 4
  else -4 + phase_quad

/-- The waveform `match self.wave_type { ... }` shared by both `get_sample`
implementations; `phase` is the raw (radian) phase. -/
def waveform (tr : Trans) (w : WaveType) (phase phase_norm phase_inc : ℚ) : ℚ :=
  match w with
  | WaveType.Sine => tr.sinQ phase
  | WaveType.Square => get_bandlimited_square phase_norm phase_inc
  | WaveType.Triangle => get_bandlimited_triangle phase_norm
  | WaveType.Sawtooth => get_bandlimited_saw phase_norm phase_inc

/-- The phase update shared by both `get_sample` implementations:
`self.phase += 2.0 * PI * phase_inc; if self.phase >= 2.0 * PI { self.phase -= 2.0 * PI }`. -/
def advance_phase (piQ phase phase_inc : ℚ) : ℚ :=
  let p := phase + 2 * piQ * phase_inc
  if p ≥ 2 * piQ then p - 2 * piQ else p

namespace Audio

/-- `src/audio/oscillator.rs`: `struct Oscillator`. -/
structure Oscillator where
  wave_type : WaveType
  phase : ℚ
  detune : ℚ
  volume : ℚ
  filter : LowPassFilter
  oversample_buffer : List ℚ
  prev_frequency : ℚ
  prev_cutoff : ℚ
deriving Repr

/-- `audio::Oscillator::new(wave_type, sample_rate)`. -/
def Oscillator.new (tr : Trans) (wave_type : WaveType) (sample_rate : ℚ) : Oscillator where
  wave_type := wave_type
  phase := 0
  detune := 0
  volume := 1
  filter := LowPassFilter.new tr.piQ 20000 (sample_rate * OVERSAMPLING)
  oversample_buffer := List.replicate 4 0
  prev_frequency := 0
  prev_cutoff := 20000

/-- The conditional cutoff update at the top of `audio::Oscillator::get_sample`:
recompute the filter coefficient only when the desired cutoff drifted by more
than 1 Hz from `prev_cutoff`. -/
def Oscillator.update_cutoff (osc : Oscillator) (piQ frequency sample_rate : ℚ) : Oscillator :=
  let cutoff := if frequency > sample_rate * (1/8) then frequency * (3/2) else frequency * (5/2)
  if |cutoff - osc.prev_cutoff| > 1 then
    { osc with
      filter := osc.filter.set_cutoff piQ (min cutoff (sample_rate * (45/100))) sample_rate
      prev_cutoff := cutoff }
  else osc

/-- `audio::Oscillator::get_sample(base_frequency, sample_rate)`: returns the
sample and the updated oscillator. -/
def Oscillator.get_sample (osc : Oscillator) (tr : Trans) (base_frequency sample_rate : ℚ) :
    ℚ × Oscillator :=
  let frequency := base_frequency * tr.pow2Q (osc.detune / 12)
  let phase_inc := frequency / sample_rate
  let osc1 := osc.update_cutoff tr.piQ frequency sample_rate
  let phase_norm := osc1.phase / (2 * tr.piQ)
  let raw_sample := waveform tr osc1.wave_type osc1.phase phase_norm phase_inc
  let osc2 := { osc1 with phase := advance_phase tr.piQ osc1.phase phase_inc }
  if frequency > sample_rate * (1/4) then
    let smoothing := 1 - min ((frequency - sample_rate * (1/4)) / (sample_rate * (1/4))) 1
    let fp := osc2.filter.process raw_sample
    (fp.1 * smoothing * osc2.volume, { osc2 with filter := fp.2 })
  else
    (raw_sample * osc2.volume, osc2)

/-- `src/audio/note.rs`: `struct Note`. -/
structure Note where
  frequency : ℚ
  sample_rate : ℚ
  envelope : Envelope
  osc1 : Oscillator
  osc2 : Oscillator
deriving Repr

/-- `audio::Note::new(frequency, envelope, sample_rate, wave_type1, wave_type2)`. -/
def Note.new (tr : Trans) (frequency : ℚ) (envelope : Envelope) (sample_rate : ℚ)
    (wave_type1 wave_type2 : WaveType) : Note where
  frequency := frequency
  sample_rate := sample_rate
  envelope := envelope
  osc1 := Oscillator.new tr wave_type1 sample_rate
  osc2 := Oscillator.new tr wave_type2 sample_rate

/-- `audio::Note::get_sample`: mixes the two oscillators. -/
def Note.get_sample (n : Note) (tr : Trans) : ℚ × Note :=
  let s1 := n.osc1.get_sample tr n.frequency n.sample_rate
  let s2 := n.osc2.get_sample tr n.frequency n.sample_rate
  ((s1.1 + s2.1) * (1/2), { n with osc1 := s1.2, osc2 := s2.2 })

end Audio

namespace Structs

/-- `src/structs/note.rs`: `struct Oscillator` (the variant used by the GUI
audio path; its `filter` field is never consulted by `get_sample`). -/
structure Oscillator where
  wave_type : WaveType
  phase : ℚ
  detune : ℚ
  volume : ℚ
  filter : LowPassFilter
  oversample_buffer : List ℚ
  prev_frequency : ℚ
  prev_cutoff : ℚ
deriving Repr

/-- `structs::Oscillator::new(wave_type, sample_rate)`. -/
def Oscillator.new (tr : Trans) (wave_type : WaveType) (sample_rate : ℚ) : Oscillator where
  wave_type := wave_type
  phase := 0
  detune := 0
  volume := 1
  filter := LowPassFilter.new tr.piQ 20000 (sample_rate * OVERSAMPLING)
  oversample_buffer := List.replicate 4 0
  prev_frequency := 0
  prev_cutoff := 20000

/-- `structs::Oscillator::get_sample(base_frequency, sample_rate)` from
`src/structs/note.rs`: unlike the `src/audio/oscillator.rs` variant it never
touches `self.filter`. -/
def Oscillator.get_sample (osc : Oscillator) (tr : Trans) (base_frequency sample_rate : ℚ) :
    ℚ × Oscillator :=
  let frequency := base_frequency * tr.pow2Q (osc.detune / 12)
  let phase_inc := frequency / sample_rate
  let phase_norm := osc.phase / (2 * tr.piQ)
  let sample := waveform tr osc.wave_type osc.phase phase_norm phase_inc
  let osc' := { osc with phase := advance_phase tr.piQ osc.phase phase_inc }
  if frequency > sample_rate * (1/4) then
    let smoothing := 1 - min ((frequency - sample_rate * (1/4)) / (sample_rate * (1/4))) 1
    (sample * smoothing * osc'.volume, osc')
  else
    (sample * osc'.volume, osc')

/-- `src/structs/note.rs`: `struct Note`. -/
structure Note where
  frequency : ℚ
  sample_rate : ℚ
  envelope : Envelope
  osc1 : Oscillator
  osc2 : Oscillator
deriving Repr

/-- `structs::Note::new(frequency, envelope, sample_rate, wave_type1, wave_type2)`. -/
def Note.new (tr : Trans) (frequency : ℚ) (envelope : Envelope) (sample_rate : ℚ)
    (wave_type1 wave_type2 : WaveType) : Note where
  frequency := frequency
  sample_rate := sample_rate
  envelope := envelope
  osc1 := Oscillator.new tr wave_type1 sample_rate
  osc2 := Oscillator.new tr wave_type2 sample_rate

/-- `structs::Note::get_sample`. -/
def Note.get_sample (n : Note) (tr : Trans) : ℚ × Note :=
  let s1 := n.osc1.get_sample tr n.frequency n.sample_rate
  let s2 := n.osc2.get_sample tr n.frequency n.sample_rate
  ((s1.1 + s2.1) * (1/2), { n with osc1 := s1.2, osc2 := s2.2 })

end Structs

/-- The voice pool `HashMap<u8, Note>` (behind `Arc<Mutex<...>>`), modelled
extensionally as a partial map from the MIDI note number to the voice. -/
def Pool (α : Type) : Type := Nat → Option α

/-- `HashMap::insert`: stores `v` under `k`, replacing any previous entry. -/
def Pool.insert {α : Type} (p : Pool α) (k : Nat) (v : α) : Pool α :=
  fun k' => if k' = k then some v else p k'

/-- `HashMap::get_mut(&k)` followed by a mutation of the found entry:
a no-op when `k` is absent. -/
def Pool.modify {α : Type} (p : Pool α) (k : Nat) (f : α → α) : Pool α :=
  fun k' => if k' = k then (p k').map f else p k'

/-- `src/midi/mod.rs`: `midi_note_to_freq(note) = 440 * 2^((note - 69)/12)`. -/
def midi_note_to_freq (tr : Trans) (note : Nat) : ℚ :=
  440 * tr.pow2Q (((note : ℚ) - 69) / 12)

/-- The `Note` built by the note-on arm of `handle_midi_message`:
`Envelope::new` + `set_adsr(0.01, 0.1, 0.7, 0.3)` + `set_velocity(velocity)`,
wrapped in `Note::new` (the envelope is freshly constructed; `note_on` is
never called on it in `src/midi/mod.rs`). -/
def fresh_note (tr : Trans) (note : Nat) (velocity sample_rate : ℚ) (wave_type : WaveType) :
    Audio.Note :=
  let envelope := ((Envelope.new sample_rate).set_adsr (1/100) (1/10) (7/10) (3/10)).set_velocity
    velocity
  Audio.Note.new tr (midi_note_to_freq tr note) envelope sample_rate wave_type wave_type

/-- `note.envelope.note_off()` applied to a stored voice. -/
def Audio.Note.env_note_off (n : Audio.Note) : Audio.Note :=
  { n with envelope := n.envelope.note_off }

/-- `src/midi/mod.rs`: `handle_midi_message(msg, active_notes, sample_rate,
wave_type)` for a three-byte message `[b0, b1, b2]`; returns the updated pool. -/
def handle_midi_message (tr : Trans) (b0 b1 b2 : Nat) (active_notes : Pool Audio.Note)
    (sample_rate : ℚ) (wave_type : WaveType) : Pool Audio.Note :=
  if b0 &&& 0xF0 = 0x90 then
    let velocity : ℚ := (b2 : ℚ) / 127
    if velocity > 0 then
      active_notes.insert b1 (fresh_note tr b1 velocity sample_rate wave_type)
    else
      active_notes.modify b1 Audio.Note.env_note_off
  else if b0 &&& 0xF0 = 0x80 then
    active_notes.modify b1 Audio.Note.env_note_off
  else
    active_notes

/-- `src/audio/mod.rs`: `soft_clip(x) = x.tanh()`, modelled over `ℝ`. -/
noncomputable def soft_clip (x : ℝ) : ℝ := Real.tanh x

/-- One voice's contribution inside the audio callback's per-frame loop
(`src/gui.rs`): `envelope_amp = note.envelope.next_sample(); sine_value =
note.get_sample(); mix += sine_value * envelope_amp * current_volume`. -/
def Structs.Note.tick (n : Structs.Note) (tr : Trans) (volume : ℚ) : ℚ × Structs.Note :=
  let amp := n.envelope.next_sample
  let n1 := { n with envelope := amp.2 }
  let s := n1.get_sample tr
  (s.1 * amp.1 * volume, s.2)

/-- The per-frame mix loop `for note in notes_guard.values_mut() { ... }` of
the `f32` audio callback, over the map's value sequence. -/
def mix_frame (tr : Trans) (volume : ℚ) : List Structs.Note → ℚ × List Structs.Note
  | [] => (0, [])
  | n :: ns =>
      let t := n.tick tr volume
      let rest := mix_frame tr volume ns
      (t.1 + rest.1, t.2 :: rest.2)

/-- One output frame of the `f32` callback: the soft-clipped mono mix is
written to every channel of the frame. -/
noncomputable def audio_frame (tr : Trans) (volume : ℚ) (channels : Nat)
    (notes : List Structs.Note) : List ℝ × List Structs.Note :=
  let m := mix_frame tr volume notes
  (List.replicate channels (soft_clip (m.1 : ℝ)), m.2)

/-- `frames` successive output frames of the `f32` callback. -/
noncomputable def process_block (tr : Trans) (volume : ℚ) (channels : Nat) :
    Nat → List Structs.Note → List (List ℝ) × List Structs.Note
  | 0, notes => ([], notes)
  | frames + 1, notes =>
      let f := audio_frame tr volume channels notes
      let rest := process_block tr volume channels frames f.2
      (f.1 :: rest.1, rest.2)

/-- The whole `f32` audio callback body (`src/gui.rs`): generate the buffer,
then `notes_guard.retain(|_, note| !note.envelope.is_finished())`. -/
noncomputable def audio_callback (tr : Trans) (volume : ℚ) (channels frames : Nat)
    (notes : List Structs.Note) : List (List ℝ) × List Structs.Note :=
  let b := process_block tr volume channels frames notes
  (b.1, b.2.filter (fun n => !n.envelope.is_finished))

/-- Reachable-state invariant of the envelope: positive time constants,
sustain and level inside `[0,1]`, positive sample rate, and nonnegative
derived increments. -/
def Envelope.Inv (e : Envelope) : Prop :=
  0 < e.attack_time ∧ 0 < e.decay_time ∧ 0 < e.release_time ∧
  0 ≤ e.sustain_level ∧ e.sustain_level ≤ 1 ∧ 0 < e.sample_rate ∧
  0 ≤ e.attack_increment ∧ 0 ≤ e.decay_increment ∧ 0 ≤ e.release_increment ∧
  0 ≤ e.current_level ∧ e.current_level ≤ 1

/-- A fixed instantiation of the transcendental parameters used in concrete
evaluations: `pow2Q` agrees with `2^x` at the only argument these evaluations
use (`0`, where `2.0f32.powf(0.0) = 1.0` exactly), `piQ` is the exact value
of the `f32` constant `PI`, and `sinQ` is never consulted (all concrete
evaluations use non-sine waveforms). -/
def trEval : Trans := ⟨fun _ => 0, fun _ => 1, piF32⟩

/-- Concrete `structs::Oscillator` state used to evaluate `get_sample` at a
normalized phase of 9/20 (raw phase `0.9 * PI`): a square-wave oscillator as
constructed by `Oscillator::new(Square, 4.0)` after its phase advanced. -/
def oscC6 : Structs.Oscillator :=
  { Structs.Oscillator.new trEval WaveType.Square 4 with phase := (9/10) * piF32 }

end RustSynth

namespace RustSynth

/-- C1 (amended): `Envelope::set_adsr` stores all four arguments verbatim —
no rejection and no clamping — and unconditionally recomputes the three
per-sample increments as `1/(attack*sample_rate)`,
`(1-sustain)/(decay*sample_rate)` and `sustain/(release*sample_rate)`;
`current_level` is untouched. -/
theorem C1_set_adsr_stores_arguments_verbatim (e : Envelope) (a d s r : ℚ) :
    (e.set_adsr a d s r).attack_time = a ∧
    (e.set_adsr a d s r).decay_time = d ∧
    (e.set_adsr a d s r).sustain_level = s ∧
    (e.set_adsr a d s r).release_time = r ∧
    (e.set_adsr a d s r).attack_increment = 1 / (a * e.sample_rate) ∧
    (e.set_adsr a d s r).decay_increment = (1 - s) / (d * e.sample_rate) ∧
    (e.set_adsr a d s r).release_increment = s / (r * e.sample_rate) ∧
    (e.set_adsr a d s r).current_level = e.current_level :=
  ⟨rfl, rfl, rfl, rfl, rfl, rfl, rfl, rfl⟩

/-- C1 counterexample: `set_adsr` neither clamps `sustain` to `[0,1]` (the
value 2 is stored as is) nor rejects a zero `attack` time (the stored attack
time is 0, which then reaches the division `1/(attack*sample_rate)`; in the
`f32` source this division yields `+Inf`). -/
theorem C1_counterexample :
    ((Envelope.new 44100).set_adsr (1/100) (1/10) 2 (3/10)).sustain_level = 2 ∧
    ¬ ((Envelope.new 44100).set_adsr (1/100) (1/10) 2 (3/10)).sustain_level ≤ 1 ∧
    ((Envelope.new 44100).set_adsr 0 (1/10) (7/10) (3/10)).attack_time = 0 := by
  refine ⟨rfl, ?_, rfl⟩
  norm_num [Envelope.new, Envelope.set_adsr, Envelope.recalculate_increments]

/-- C9: `soft_clip(x) = tanh(x)` lies in the open interval `(-1, 1)` for
every input. -/
theorem C9_soft_clip_range (x : ℝ) : -1 < soft_clip x ∧ soft_clip x < 1 := by
  constructor
  · rw [soft_clip, Real.tanh_eq_sinh_div_cosh, lt_div_iff₀ (Real.cosh_pos x)]
    nlinarith [Real.cosh_add_sinh x, Real.exp_pos x]
  · rw [soft_clip, Real.tanh_eq_sinh_div_cosh, div_lt_one (Real.cosh_pos x)]
    nlinarith [Real.cosh_sub_sinh x, Real.exp_pos (-x)]

/-- C10: `Envelope::note_on` changes only `state` (to `Attack`) and the
derived increments; in particular `current_level` is not reset, so a
retrigger resumes the attack ramp from the current level. A zero-level
attack arises only from the freshly constructed envelope that the note-on
path of `handle_midi_message` inserts into the pool. -/
theorem C10_note_on_keeps_current_level (e : Envelope) (tr : Trans) (note : Nat)
    (velocity sample_rate : ℚ) (wave_type : WaveType) :
    e.note_on.current_level = e.current_level ∧
    e.note_on.state = EnvelopeState.Attack ∧
    e.note_on.sample_rate = e.sample_rate ∧
    e.note_on.attack_time = e.attack_time ∧
    e.note_on.decay_time = e.decay_time ∧
    e.note_on.sustain_level = e.sustain_level ∧
    e.note_on.release_time = e.release_time ∧
    e.note_on.velocity = e.velocity ∧
    e.note_on.attack_increment = 1 / (e.attack_time * e.sample_rate) ∧
    e.note_on.decay_increment = (1 - e.sustain_level) / (e.decay_time * e.sample_rate) ∧
    e.note_on.release_increment = e.sustain_level / (e.release_time * e.sample_rate) ∧
    (fresh_note tr note velocity sample_rate wave_type).envelope.current_level = 0 :=
  ⟨rfl, rfl, rfl, rfl, rfl, rfl, rfl, rfl, rfl, rfl, rfl, rfl⟩

/-- Auxiliary: a block generated from an empty voice list is all zeros. -/
theorem process_block_empty (tr : Trans) (v : ℚ) (c : Nat) :
    ∀ n, process_block tr v c n [] = (List.replicate n (List.replicate c 0), []) := by
  intro n
  induction n with
  | zero => rfl
  | succ k ih =>
      simp [process_block, audio_frame, mix_frame, soft_clip, Real.tanh_zero, ih,
        List.replicate_succ]

/-- C5: when the active-notes map is empty at entry to the audio callback,
the per-frame mix accumulator stays 0, `soft_clip(0) = 0`, and every sample
written to the buffer is exactly 0 on every channel. -/
theorem C5_empty_pool_yields_silence (tr : Trans) (volume : ℚ) (channels frames : Nat) :
    mix_frame tr volume [] = (0, []) ∧
    soft_clip 0 = 0 ∧
    audio_callback tr volume channels frames [] =
      (List.replicate frames (List.replicate channels 0), []) := by
  refine ⟨rfl, Real.tanh_zero, ?_⟩
  simp [audio_callback, process_block_empty]

/-- C3: the envelope state machine of `next_sample` / `note_on` / `note_off`:
Attack clamps to 1 and moves to Decay exactly when the incremented level
reaches 1; Decay clamps to `sustain_level` and moves to Sustain exactly when
the decremented level reaches it; Release clamps to 0 and moves to Idle
(making `is_finished` true) exactly when the decremented level reaches 0;
Sustain and Idle are fixed points of `next_sample`; `note_off` sends every
non-Idle state to Release and is a no-op on Idle; `note_on` sends any state
to Attack. -/
theorem C3_envelope_state_machine (e : Envelope) :
    (e.state = EnvelopeState.Attack → 1 ≤ e.current_level + e.attack_increment →
      e.next_sample.2.state = EnvelopeState.Decay ∧ e.next_sample.2.current_level = 1) ∧
    (e.state = EnvelopeState.Attack → e.current_level + e.attack_increment < 1 →
      e.next_sample.2.state = EnvelopeState.Attack ∧
      e.next_sample.2.current_level = e.current_level + e.attack_increment) ∧
    (e.state = EnvelopeState.Decay → e.current_level - e.decay_increment ≤ e.sustain_level →
      e.next_sample.2.state = EnvelopeState.Sustain ∧
      e.next_sample.2.current_level = e.sustain_level) ∧
    (e.state = EnvelopeState.Decay → e.sustain_level < e.current_level - e.decay_increment →
      e.next_sample.2.state = EnvelopeState.Decay ∧
      e.next_sample.2.current_level = e.current_level - e.decay_increment) ∧
    (e.state = EnvelopeState.Release → e.current_level - e.release_increment ≤ 0 →
      e.next_sample.2.state = EnvelopeState.Idle ∧ e.next_sample.2.current_level = 0 ∧
      e.next_sample.2.is_finished = true) ∧
    (e.state = EnvelopeState.Release → 0 < e.current_level - e.release_increment →
      e.next_sample.2.state = EnvelopeState.Release ∧
      e.next_sample.2.current_level = e.current_level - e.release_increment) ∧
    (e.state = EnvelopeState.Sustain → e.next_sample.2 = e) ∧
    (e.state = EnvelopeState.Idle → e.next_sample.2 = e) ∧
    (e.state ≠ EnvelopeState.Idle → e.note_off.state = EnvelopeState.Release) ∧
    (e.state = EnvelopeState.Idle → e.note_off = e) ∧
    e.note_on.state = EnvelopeState.Attack := by
  refine ⟨?_, ?_, ?_, ?_, ?_, ?_, ?_, ?_, ?_, ?_, rfl⟩
  · intro hs hl
    simp [Envelope.next_sample, hs, ge_iff_le, if_pos hl]
  · intro hs hl
    simp [Envelope.next_sample, hs, ge_iff_le, if_neg (not_le.mpr hl)]
  · intro hs hl
    have hl' : e.current_level ≤ e.sustain_level + e.decay_increment := by linarith
    simp [Envelope.next_sample, hs, hl']
  · intro hs hl
    have hl' : ¬ e.current_level ≤ e.sustain_level + e.decay_increment := by
      push_neg
      linarith
    simp [Envelope.next_sample, hs, hl']
  · intro hs hl
    have hl' : e.current_level ≤ e.release_increment := by linarith
    simp [Envelope.next_sample, Envelope.is_finished, hs, hl']
  · intro hs hl
    have hl' : ¬ e.current_level ≤ e.release_increment := by
      push_neg
      linarith
    simp [Envelope.next_sample, hs, hl']
  · intro hs
    simp only [Envelope.next_sample, hs]
  · intro hs
    simp only [Envelope.next_sample, hs]
  · intro hs
    simp only [Envelope.note_off, if_pos hs]
  · intro hs
    simp only [Envelope.note_off, hs]
    simp

/-- Witness for C3 at a concrete envelope: the default envelope after
`note_on` is in Attack with level `1/441` below 1, and one `next_sample`
step stays in Attack at level `0 + 1/441`. -/
theorem C3_envelope_state_machine_witness :
    ((Envelope.new 44100).note_on.state = EnvelopeState.Attack ∧
      (Envelope.new 44100).note_on.current_level +
        (Envelope.new 44100).note_on.attack_increment < 1) ∧
    ((Envelope.new 44100).note_on.next_sample.2.state = EnvelopeState.Attack ∧
      (Envelope.new 44100).note_on.next_sample.2.current_level =
        (Envelope.new 44100).note_on.current_level +
          (Envelope.new 44100).note_on.attack_increment) :=
  ⟨⟨rfl, by norm_num [Envelope.new, Envelope.note_on, Envelope.recalculate_increments]⟩,
    (C3_envelope_state_machine ((Envelope.new 44100).note_on)).2.1 rfl
      (by norm_num [Envelope.new, Envelope.note_on, Envelope.recalculate_increments])⟩

/-- Auxiliary: `recalculate_increments` keeps the invariant whenever the
stored parameters are well formed. -/
theorem Envelope.Inv.recalc {e : Envelope} (h1 : 0 < e.attack_time) (h2 : 0 < e.decay_time)
    (h3 : 0 < e.release_time) (h4 : 0 ≤ e.sustain_level) (h5 : e.sustain_level ≤ 1)
    (h6 : 0 < e.sample_rate) (h7 : 0 ≤ e.current_level) (h8 : e.current_level ≤ 1) :
    e.recalculate_increments.Inv := by
  refine ⟨h1, h2, h3, h4, h5, h6, ?_, ?_, ?_, h7, h8⟩
  · exact le_of_lt (div_pos one_pos (mul_pos h1 h6))
  · exact div_nonneg (by linarith) (le_of_lt (mul_pos h2 h6))
  · exact div_nonneg h4 (le_of_lt (mul_pos h3 h6))

/-- Auxiliary: `next_sample` keeps the invariant. -/
theorem Envelope.Inv.next {e : Envelope} (he : e.Inv) : e.next_sample.2.Inv := by
  obtain ⟨h1, h2, h3, h4, h5, h6, h7, h8, h9, h10, h11⟩ := he
  unfold Envelope.next_sample
  cases hs : e.state
  case Idle => exact ⟨h1, h2, h3, h4, h5, h6, h7, h8, h9, h10, h11⟩
  case Attack =>
    dsimp only
    by_cases hl : e.current_level + e.attack_increment ≥ 1
    · rw [if_pos hl]
      exact ⟨h1, h2, h3, h4, h5, h6, h7, h8, h9, by norm_num, le_refl 1⟩
    · rw [if_neg hl]
      push_neg at hl
      exact ⟨h1, h2, h3, h4, h5, h6, h7, h8, h9, by dsimp only; linarith, le_of_lt hl⟩
  case Decay =>
    dsimp only
    by_cases hl : e.current_level - e.decay_increment ≤ e.sustain_level
    · rw [if_pos hl]
      exact ⟨h1, h2, h3, h4, h5, h6, h7, h8, h9, h4, h5⟩
    · rw [if_neg hl]
      push_neg at hl
      exact ⟨h1, h2, h3, h4, h5, h6, h7, h8, h9, by dsimp only; linarith,
        by dsimp only; linarith⟩
  case Sustain => exact ⟨h1, h2, h3, h4, h5, h6, h7, h8, h9, h10, h11⟩
  case Release =>
    dsimp only
    by_cases hl : e.current_level - e.release_increment ≤ 0
    · rw [if_pos hl]
      exact ⟨h1, h2, h3, h4, h5, h6, h7, h8, h9, le_refl 0, by norm_num⟩
    · rw [if_neg hl]
      push_neg at hl
      exact ⟨h1, h2, h3, h4, h5, h6, h7, h8, h9, le_of_lt hl, by dsimp only; linarith⟩

/-- C2 (amended with the positivity of the sample rate): on every envelope
satisfying the invariant — positive attack/decay/release times, sustain in
`[0,1]`, a positive sample rate, nonnegative derived increments (the only
increments the private fields can hold), and a level in `[0,1]` — each of
`new`, `note_on`, `note_off`, `set_adsr` (with well-formed arguments),
`set_velocity` and `next_sample` preserves the invariant, hence keeps
`current_level` inside `[0,1]`. -/
theorem C2_level_stays_in_unit_interval (e : Envelope) (a d s r v sr : ℚ)
    (he : e.Inv) (hsr : 0 < sr) (ha : 0 < a) (hd : 0 < d) (hr : 0 < r)
    (hs0 : 0 ≤ s) (hs1 : s ≤ 1) :
    (Envelope.new sr).Inv ∧
    e.note_on.Inv ∧
    e.note_off.Inv ∧
    (e.set_adsr a d s r).Inv ∧
    (e.set_velocity v).Inv ∧
    e.next_sample.2.Inv ∧
    0 ≤ e.current_level ∧ e.current_level ≤ 1 ∧
    0 ≤ e.next_sample.2.current_level ∧ e.next_sample.2.current_level ≤ 1 := by
  obtain ⟨h1, h2, h3, h4, h5, h6, h7, h8, h9, h10, h11⟩ := he
  have hnext : e.next_sample.2.Inv :=
    Envelope.Inv.next ⟨h1, h2, h3, h4, h5, h6, h7, h8, h9, h10, h11⟩
  refine ⟨?_, ?_, ?_, ?_, ?_, hnext, h10, h11, hnext.2.2.2.2.2.2.2.2.2.1,
    hnext.2.2.2.2.2.2.2.2.2.2⟩
  · exact ⟨by norm_num [Envelope.new], by norm_num [Envelope.new], by norm_num [Envelope.new],
      by norm_num [Envelope.new], by norm_num [Envelope.new], hsr, le_refl 0, le_refl 0,
      le_refl 0, le_refl 0, by norm_num [Envelope.new]⟩
  · exact Envelope.Inv.recalc h1 h2 h3 h4 h5 h6 h10 h11
  · unfold Envelope.note_off
    by_cases hs : e.state ≠ EnvelopeState.Idle
    · rw [if_pos hs]
      exact ⟨h1, h2, h3, h4, h5, h6, h7, h8, h9, h10, h11⟩
    · rw [if_neg hs]
      exact ⟨h1, h2, h3, h4, h5, h6, h7, h8, h9, h10, h11⟩
  · exact Envelope.Inv.recalc ha hd hr hs0 hs1 h6 h10 h11
  · exact Envelope.Inv.recalc h1 h2 h3 h4 h5 h6 h10 h11

/-- Witness for C2 at the default envelope (sample rate 44100) after
`note_on`, with `set_adsr(1/50, 1/5, 1/2, 2/5)` and `set_velocity(1/2)` as
the mutating calls. -/
theorem C2_level_stays_in_unit_interval_witness :
    ((Envelope.new 44100).note_on.Inv ∧ (0:ℚ) < 44100 ∧ (0:ℚ) < 1/50 ∧ (0:ℚ) < 1/5 ∧
      (0:ℚ) < 2/5 ∧ (0:ℚ) ≤ 1/2 ∧ (1:ℚ)/2 ≤ 1) ∧
    ((Envelope.new 44100).note_on.next_sample.2.Inv ∧
      0 ≤ (Envelope.new 44100).note_on.next_sample.2.current_level ∧
      (Envelope.new 44100).note_on.next_sample.2.current_level ≤ 1) := by
  have hInv : (Envelope.new 44100).note_on.Inv := by
    refine ⟨?_, ?_, ?_, ?_, ?_, ?_, ?_, ?_, ?_, ?_, ?_⟩ <;>
      norm_num [Envelope.new, Envelope.note_on, Envelope.recalculate_increments]
  have h := C2_level_stays_in_unit_interval ((Envelope.new 44100).note_on)
    (1/50) (1/5) (1/2) (2/5) (1/2) 44100 hInv (by norm_num) (by norm_num) (by norm_num)
    (by norm_num) (by norm_num) (by norm_num)
  exact ⟨⟨hInv, by norm_num, by norm_num, by norm_num, by norm_num, by norm_num, by norm_num⟩,
    h.2.2.2.2.2.1, h.2.2.2.2.2.2.2.2.1, h.2.2.2.2.2.2.2.2.2⟩

/-- C2 counterexample: the claim as stated quantifies only over
`attack_time`, `decay_time`, `release_time` and `sustain_level`; with the
negative sample rate `-1` (all four listed parameters still well formed,
level 0 inside `[0,1]`), one `next_sample` step in Attack drives
`current_level` to `-100`, outside `[0,1]`. -/
theorem C2_counterexample :
    (0 < ((Envelope.new (-1)).note_on).attack_time ∧
      0 < ((Envelope.new (-1)).note_on).decay_time ∧
      0 < ((Envelope.new (-1)).note_on).release_time ∧
      0 ≤ ((Envelope.new (-1)).note_on).sustain_level ∧
      ((Envelope.new (-1)).note_on).sustain_level ≤ 1 ∧
      0 ≤ ((Envelope.new (-1)).note_on).current_level ∧
      ((Envelope.new (-1)).note_on).current_level ≤ 1) ∧
    ((Envelope.new (-1)).note_on).next_sample.2.current_level = -100 ∧
    ¬ (0 ≤ ((Envelope.new (-1)).note_on).next_sample.2.current_level) := by
  refine ⟨⟨?_, ?_, ?_, ?_, ?_, ?_, ?_⟩, ?_, ?_⟩ <;>
    norm_num [Envelope.new, Envelope.note_on, Envelope.recalculate_increments,
      Envelope.next_sample]

/-- C4: a note-on message (status 0x90) with positive velocity inserts a
freshly constructed `Note` under its note id, replacing whatever the pool
held there (last-writer-wins, the old envelope state is discarded since the
stored value becomes the fresh note); a note-off message (status 0x80) for a
note id absent from the pool leaves the pool unchanged. -/
theorem C4_pool_note_events (tr : Trans) (b0 b1 b2 : Nat) (pool : Pool Audio.Note)
    (sr : ℚ) (wt : WaveType) :
    (b0 &&& 0xF0 = 0x90 → 0 < b2 →
      handle_midi_message tr b0 b1 b2 pool sr wt =
        pool.insert b1 (fresh_note tr b1 ((b2 : ℚ) / 127) sr wt) ∧
      handle_midi_message tr b0 b1 b2 pool sr wt b1 =
        some (fresh_note tr b1 ((b2 : ℚ) / 127) sr wt) ∧
      (fresh_note tr b1 ((b2 : ℚ) / 127) sr wt).envelope.current_level = 0) ∧
    (b0 &&& 0xF0 = 0x80 → pool b1 = none →
      handle_midi_message tr b0 b1 b2 pool sr wt = pool) := by
  constructor
  · intro h0 hv
    have hvq : ((b2 : ℚ) / 127) > 0 := by
      have : (0 : ℚ) < (b2 : ℚ) := by exact_mod_cast hv
      positivity
    unfold handle_midi_message
    rw [if_pos h0, if_pos hvq]
    exact ⟨rfl, by simp [Pool.insert], rfl⟩
  · intro h0 hnone
    unfold handle_midi_message
    rw [if_neg (by rw [h0]; decide), if_pos h0]
    funext k
    simp only [Pool.modify]
    by_cases hk : k = b1
    · rw [if_pos hk, hk, hnone]
      rfl
    · rw [if_neg hk]

/-- Witness for C4: on the empty pool, the note-on message (0x90, 60, 64)
stores the fresh note under key 60, and the note-off message (0x80, 61, 0)
for the absent key 61 leaves the pool unchanged. -/
theorem C4_pool_note_events_witness :
    ((0x90 : Nat) &&& 0xF0 = 0x90 ∧ (0 : Nat) < 64 ∧
      (0x80 : Nat) &&& 0xF0 = 0x80 ∧ (fun _ => none : Pool Audio.Note) 61 = none) ∧
    (handle_midi_message trEval 0x90 60 64 (fun _ => none) 44100 WaveType.Sine =
        Pool.insert (fun _ => none) 60 (fresh_note trEval 60 ((64 : ℚ) / 127) 44100
          WaveType.Sine) ∧
      handle_midi_message trEval 0x90 60 64 (fun _ => none) 44100 WaveType.Sine 60 =
        some (fresh_note trEval 60 ((64 : ℚ) / 127) 44100 WaveType.Sine)) ∧
    handle_midi_message trEval 0x80 61 0 (fun _ => none) 44100 WaveType.Sine =
      (fun _ => none) :=
  ⟨⟨by decide, by decide, by decide, rfl⟩,
    ⟨((C4_pool_note_events trEval 0x90 60 64 (fun _ => none) 44100 WaveType.Sine).1
        (by decide) (by decide)).1,
      ((C4_pool_note_events trEval 0x90 60 64 (fun _ => none) 44100 WaveType.Sine).1
        (by decide) (by decide)).2.1⟩,
    (C4_pool_note_events trEval 0x80 61 0 (fun _ => none) 44100 WaveType.Sine).2
      (by decide) rfl⟩

/-- C7: the PolyBLEP correction follows the spec formula in its three
(ordered) cases, and the band-limited square and sawtooth are assembled from
it exactly as the spec states: square = ±1 (sign from `phase_norm < 0.5`)
plus BLEP at the phase minus BLEP at the half-cycle-shifted phase (mod 1);
saw = `2*phase_norm - 1` minus BLEP at the phase. -/
theorem C7_poly_blep_formulas (t dt phase_norm phase_inc : ℚ) :
    (t < dt → poly_blep t dt = 2 * (t / dt) - (t / dt) * (t / dt) - 1) ∧
    (¬ t < dt → 1 - dt < t →
      poly_blep t dt = ((t - 1) / dt) * ((t - 1) / dt) + 2 * ((t - 1) / dt) + 1) ∧
    (¬ t < dt → ¬ (1 - dt < t) → poly_blep t dt = 0) ∧
    get_bandlimited_square phase_norm phase_inc =
      (if phase_norm < 1/2 then (1 : ℚ) else -1) + poly_blep phase_norm phase_inc
        - poly_blep (fmodOne (phase_norm + 1/2)) phase_inc ∧
    get_bandlimited_saw phase_norm phase_inc =
      (2 * phase_norm - 1) - poly_blep phase_norm phase_inc := by
  refine ⟨?_, ?_, ?_, rfl, ?_⟩
  · intro h
    simp [poly_blep, h]
  · intro h1 h2
    simp [poly_blep, h1, h2]
  · intro h1 h2
    simp [poly_blep, h1, h2]
  · unfold get_bandlimited_saw
    ring

/-- Witness for C7 at `t = 1/4`, `dt = 1/2` (first BLEP branch) and
`phase_norm = 1/4`, `phase_inc = 1/2`. -/
theorem C7_poly_blep_formulas_witness :
    ((1 : ℚ)/4 < 1/2 ∧
      poly_blep (1/4) (1/2) =
        2 * ((1/4) / ((1:ℚ)/2)) - ((1/4) / ((1:ℚ)/2)) * ((1/4) / ((1:ℚ)/2)) - 1) ∧
    get_bandlimited_saw (1/4) (1/2) =
      (2 * (1/4) - 1) - poly_blep ((1:ℚ)/4) (1/2) :=
  ⟨⟨by norm_num, (C7_poly_blep_formulas (1/4) (1/2) (1/4) (1/2)).1 (by norm_num)⟩,
    (C7_poly_blep_formulas (1/4) (1/2) (1/4) (1/2)).2.2.2.2⟩

/-- Auxiliary: the shared phase update keeps the phase in `[0, 2*pi)` when
the normalized increment is in `[0, 1)`. -/
theorem advance_phase_mem (piQ phase inc : ℚ) (hpi : 0 < piQ) (h0 : 0 ≤ inc) (h1 : inc < 1)
    (hp0 : 0 ≤ phase) (hp1 : phase < 2 * piQ) :
    0 ≤ advance_phase piQ phase inc ∧ advance_phase piQ phase inc < 2 * piQ := by
  unfold advance_phase
  have hlt : 2 * piQ * inc < 2 * piQ := by
    nlinarith
  by_cases h : phase + 2 * piQ * inc ≥ 2 * piQ
  · rw [if_pos h]
    exact ⟨by linarith, by linarith⟩
  · rw [if_neg h]
    push_neg at h
    have : 0 ≤ 2 * piQ * inc := by positivity
    exact ⟨by linarith, h⟩

/-- Auxiliary: the `structs` oscillator's `get_sample` updates the phase by
the shared phase update, in both amplitude branches. -/
theorem Structs.get_sample_phase_wrap (osc : Structs.Oscillator) (tr : Trans) (b sr : ℚ) :
    (osc.get_sample tr b sr).2.phase =
      advance_phase tr.piQ osc.phase (b * tr.pow2Q (osc.detune / 12) / sr) := by
  unfold Structs.Oscillator.get_sample
  dsimp only
  split_ifs <;> rfl

/-- Auxiliary: the `audio` oscillator's `get_sample` updates the phase by the
shared phase update, in both amplitude branches (the cutoff update never
touches the phase). -/
theorem Audio.get_sample_phase_update (osc : Audio.Oscillator) (tr : Trans) (b sr : ℚ) :
    (osc.get_sample tr b sr).2.phase =
      advance_phase tr.piQ osc.phase (b * tr.pow2Q (osc.detune / 12) / sr) := by
  unfold Audio.Oscillator.get_sample Audio.Oscillator.update_cutoff
  dsimp only
  split_ifs <;> rfl

/-- C8 (amended with the nonnegativity of the effective frequency): for any
`get_sample` call of either oscillator implementation whose effective
frequency `base_frequency * 2^(detune/12)` is nonnegative and strictly below
the sample rate, a pre-call phase inside `[0, 2*pi)` stays inside `[0, 2*pi)`
after the single subtraction wrap. -/
theorem C8_phase_stays_in_cycle (tr : Trans) (oscS : Structs.Oscillator)
    (oscA : Audio.Oscillator) (baseS baseA srS srA : ℚ) (hpi : 0 < tr.piQ)
    (hS0 : 0 ≤ baseS * tr.pow2Q (oscS.detune / 12))
    (hS1 : baseS * tr.pow2Q (oscS.detune / 12) < srS)
    (hSp0 : 0 ≤ oscS.phase) (hSp1 : oscS.phase < 2 * tr.piQ)
    (hA0 : 0 ≤ baseA * tr.pow2Q (oscA.detune / 12))
    (hA1 : baseA * tr.pow2Q (oscA.detune / 12) < srA)
    (hAp0 : 0 ≤ oscA.phase) (hAp1 : oscA.phase < 2 * tr.piQ) :
    (0 ≤ (oscS.get_sample tr baseS srS).2.phase ∧
      (oscS.get_sample tr baseS srS).2.phase < 2 * tr.piQ) ∧
    (0 ≤ (oscA.get_sample tr baseA srA).2.phase ∧
      (oscA.get_sample tr baseA srA).2.phase < 2 * tr.piQ) := by
  have hsrS : 0 < srS := lt_of_le_of_lt hS0 hS1
  have hsrA : 0 < srA := lt_of_le_of_lt hA0 hA1
  constructor
  · rw [Structs.get_sample_phase_wrap]
    exact advance_phase_mem tr.piQ oscS.phase _ hpi (div_nonneg hS0 hsrS.le)
      ((div_lt_one hsrS).mpr hS1) hSp0 hSp1
  · rw [Audio.get_sample_phase_update]
    exact advance_phase_mem tr.piQ oscA.phase _ hpi (div_nonneg hA0 hsrA.le)
      ((div_lt_one hsrA).mpr hA1) hAp0 hAp1

/-- Witness for C8: fresh square oscillators of both kinds at 44100 Hz with
base frequency 440 (effective frequency 440, below the sample rate) keep the
phase inside `[0, 2*pi)`. -/
theorem C8_phase_stays_in_cycle_witness :
    ((0 : ℚ) < trEval.piQ ∧
      (0 : ℚ) ≤ 440 * trEval.pow2Q ((Structs.Oscillator.new trEval WaveType.Square
        44100).detune / 12) ∧
      (440 : ℚ) * trEval.pow2Q ((Structs.Oscillator.new trEval WaveType.Square
        44100).detune / 12) < 44100 ∧
      (0 : ℚ) ≤ (Structs.Oscillator.new trEval WaveType.Square 44100).phase ∧
      (Structs.Oscillator.new trEval WaveType.Square 44100).phase < 2 * trEval.piQ) ∧
    (0 ≤ ((Structs.Oscillator.new trEval WaveType.Square 44100).get_sample trEval
        440 44100).2.phase ∧
      ((Structs.Oscillator.new trEval WaveType.Square 44100).get_sample trEval
        440 44100).2.phase < 2 * trEval.piQ) ∧
    (0 ≤ ((Audio.Oscillator.new trEval WaveType.Square 44100).get_sample trEval
        440 44100).2.phase ∧
      ((Audio.Oscillator.new trEval WaveType.Square 44100).get_sample trEval
        440 44100).2.phase < 2 * trEval.piQ) := by
  have h := C8_phase_stays_in_cycle trEval (Structs.Oscillator.new trEval WaveType.Square 44100)
    (Audio.Oscillator.new trEval WaveType.Square 44100) 440 440 44100 44100
    (by norm_num [trEval, piF32]) (by norm_num [trEval, Structs.Oscillator.new])
    (by norm_num [trEval, Structs.Oscillator.new]) (by norm_num [Structs.Oscillator.new])
    (by norm_num [trEval, piF32, Structs.Oscillator.new])
    (by norm_num [trEval, Audio.Oscillator.new]) (by norm_num [trEval, Audio.Oscillator.new])
    (by norm_num [Audio.Oscillator.new]) (by norm_num [trEval, piF32, Audio.Oscillator.new])
  exact ⟨⟨by norm_num [trEval, piF32], by norm_num [trEval, Structs.Oscillator.new],
    by norm_num [trEval, Structs.Oscillator.new], by norm_num [Structs.Oscillator.new],
    by norm_num [trEval, piF32, Structs.Oscillator.new]⟩, h.1, h.2⟩

/-- C8 counterexample: the claim as stated only bounds the effective
frequency from above; a `get_sample` call with the negative base frequency
`-2` at sample rate 1 (effective frequency `-2 < 1`), starting from phase 0,
leaves the phase at `-4*pi`, outside `[0, 2*pi)`: the single subtraction
wrap never repairs a negative advance. -/
theorem C8_counterexample :
    ((Structs.Oscillator.new trEval WaveType.Square 1).phase = 0 ∧
      (-2 : ℚ) * trEval.pow2Q ((Structs.Oscillator.new trEval WaveType.Square 1).detune / 12)
        < 1 ∧
      0 ≤ (Structs.Oscillator.new trEval WaveType.Square 1).phase ∧
      (Structs.Oscillator.new trEval WaveType.Square 1).phase < 2 * trEval.piQ) ∧
    ¬ (0 ≤ ((Structs.Oscillator.new trEval WaveType.Square 1).get_sample trEval
        (-2) 1).2.phase) := by
  refine ⟨⟨rfl, by norm_num [trEval, Structs.Oscillator.new],
    by norm_num [Structs.Oscillator.new], by norm_num [trEval, piF32, Structs.Oscillator.new]⟩,
    ?_⟩
  rw [Structs.get_sample_phase_wrap]
  norm_num [advance_phase, trEval, piF32, Structs.Oscillator.new]

/-- Auxiliary: the cutoff update leaves waveform-relevant fields unchanged. -/
theorem Audio.update_cutoff_fields (osc : Audio.Oscillator) (piQ f sr : ℚ) :
    (osc.update_cutoff piQ f sr).wave_type = osc.wave_type ∧
    (osc.update_cutoff piQ f sr).phase = osc.phase ∧
    (osc.update_cutoff piQ f sr).volume = osc.volume := by
  unfold Audio.Oscillator.update_cutoff
  dsimp only
  split_ifs <;> exact ⟨rfl, rfl, rfl⟩

/-- Auxiliary: `audio::Oscillator::get_sample` above a quarter of the sample
rate: the raw waveform goes through the (conditionally recomputed) one-pole
low-pass filter and is scaled by the linear fade times the volume. -/
theorem Audio.get_sample_high_filtered (osc : Audio.Oscillator) (tr : Trans) (base sr : ℚ)
    (h : base * tr.pow2Q (osc.detune / 12) > sr / 4) :
    (osc.get_sample tr base sr).1 =
      ((osc.update_cutoff tr.piQ (base * tr.pow2Q (osc.detune / 12)) sr).filter.process
          (waveform tr osc.wave_type osc.phase (osc.phase / (2 * tr.piQ))
            (base * tr.pow2Q (osc.detune / 12) / sr))).1 *
        (1 - min ((base * tr.pow2Q (osc.detune / 12) - sr / 4) / (sr / 4)) 1) *
        osc.volume := by
  have hf := Audio.update_cutoff_fields osc tr.piQ (base * tr.pow2Q (osc.detune / 12)) sr
  unfold Audio.Oscillator.get_sample
  dsimp only
  rw [show sr * (1 / 4) = sr / 4 from by ring, if_pos h, hf.1, hf.2.1, hf.2.2]

/-- Auxiliary: `audio::Oscillator::get_sample` at or below a quarter of the
sample rate returns the raw waveform scaled by the volume only. -/
theorem Audio.get_sample_low_plain (osc : Audio.Oscillator) (tr : Trans) (base sr : ℚ)
    (h : ¬ base * tr.pow2Q (osc.detune / 12) > sr / 4) :
    (osc.get_sample tr base sr).1 =
      waveform tr osc.wave_type osc.phase (osc.phase / (2 * tr.piQ))
        (base * tr.pow2Q (osc.detune / 12) / sr) * osc.volume := by
  have hf := Audio.update_cutoff_fields osc tr.piQ (base * tr.pow2Q (osc.detune / 12)) sr
  unfold Audio.Oscillator.get_sample
  dsimp only
  rw [show sr * (1 / 4) = sr / 4 from by ring, if_neg h, hf.1, hf.2.1, hf.2.2]

/-- Auxiliary: `structs::Oscillator::get_sample` above a quarter of the
sample rate: the raw waveform is scaled by the fade and the volume, without
passing through the filter. -/
theorem Structs.get_sample_high_unfiltered (osc : Structs.Oscillator) (tr : Trans) (base sr : ℚ)
    (h : base * tr.pow2Q (osc.detune / 12) > sr / 4) :
    (osc.get_sample tr base sr).1 =
      waveform tr osc.wave_type osc.phase (osc.phase / (2 * tr.piQ))
        (base * tr.pow2Q (osc.detune / 12) / sr) *
        (1 - min ((base * tr.pow2Q (osc.detune / 12) - sr / 4) / (sr / 4)) 1) *
        osc.volume := by
  unfold Structs.Oscillator.get_sample
  dsimp only
  rw [show sr * (1 / 4) = sr / 4 from by ring, if_pos h]

/-- Auxiliary: `structs::Oscillator::get_sample` at or below a quarter of
the sample rate returns the raw waveform scaled by the volume only. -/
theorem Structs.get_sample_low_scaled (osc : Structs.Oscillator) (tr : Trans) (base sr : ℚ)
    (h : ¬ base * tr.pow2Q (osc.detune / 12) > sr / 4) :
    (osc.get_sample tr base sr).1 =
      waveform tr osc.wave_type osc.phase (osc.phase / (2 * tr.piQ))
        (base * tr.pow2Q (osc.detune / 12) / sr) * osc.volume := by
  unfold Structs.Oscillator.get_sample
  dsimp only
  rw [show sr * (1 / 4) = sr / 4 from by ring, if_neg h]

/-- C6 (amended): for the `src/audio/oscillator.rs` oscillator the claim
holds as stated — above `sample_rate/4` the raw waveform is passed through
the one-pole low-pass filter and scaled by
`1 - min((f - sr/4)/(sr/4), 1)` times the volume, reaching exactly 0 at
`f = sr/2`, and at or below `sample_rate/4` the raw sample is scaled by the
volume only. The `src/structs/note.rs` oscillator applies the same fade and
volume but does not pass the sample through its filter. -/
theorem C6_high_frequency_fade (tr : Trans) (oscA : Audio.Oscillator)
    (oscS : Structs.Oscillator) (baseA baseS srA srS : ℚ) :
    (baseA * tr.pow2Q (oscA.detune / 12) > srA / 4 →
      (oscA.get_sample tr baseA srA).1 =
        ((oscA.update_cutoff tr.piQ (baseA * tr.pow2Q (oscA.detune / 12)) srA).filter.process
            (waveform tr oscA.wave_type oscA.phase (oscA.phase / (2 * tr.piQ))
              (baseA * tr.pow2Q (oscA.detune / 12) / srA))).1 *
          (1 - min ((baseA * tr.pow2Q (oscA.detune / 12) - srA / 4) / (srA / 4)) 1) *
          oscA.volume) ∧
    (¬ baseA * tr.pow2Q (oscA.detune / 12) > srA / 4 →
      (oscA.get_sample tr baseA srA).1 =
        waveform tr oscA.wave_type oscA.phase (oscA.phase / (2 * tr.piQ))
          (baseA * tr.pow2Q (oscA.detune / 12) / srA) * oscA.volume) ∧
    (baseS * tr.pow2Q (oscS.detune / 12) > srS / 4 →
      (oscS.get_sample tr baseS srS).1 =
        waveform tr oscS.wave_type oscS.phase (oscS.phase / (2 * tr.piQ))
          (baseS * tr.pow2Q (oscS.detune / 12) / srS) *
          (1 - min ((baseS * tr.pow2Q (oscS.detune / 12) - srS / 4) / (srS / 4)) 1) *
          oscS.volume) ∧
    (¬ baseS * tr.pow2Q (oscS.detune / 12) > srS / 4 →
      (oscS.get_sample tr baseS srS).1 =
        waveform tr oscS.wave_type oscS.phase (oscS.phase / (2 * tr.piQ))
          (baseS * tr.pow2Q (oscS.detune / 12) / srS) * oscS.volume) ∧
    (0 < srA → baseA * tr.pow2Q (oscA.detune / 12) = srA / 2 →
      (oscA.get_sample tr baseA srA).1 = 0) := by
  refine ⟨Audio.get_sample_high_filtered oscA tr baseA srA, Audio.get_sample_low_plain oscA tr baseA srA,
    Structs.get_sample_high_unfiltered oscS tr baseS srS, Structs.get_sample_low_scaled oscS tr baseS srS, ?_⟩
  intro hsr hf
  have hq : srA / 4 ≠ 0 := by positivity
  have hgt : baseA * tr.pow2Q (oscA.detune / 12) > srA / 4 := by
    rw [hf]
    linarith
  rw [Audio.get_sample_high_filtered oscA tr baseA srA hgt, hf]
  have : (srA / 2 - srA / 4) / (srA / 4) = 1 := by
    rw [show srA / 2 - srA / 4 = srA / 4 from by ring, div_self hq]
  rw [this]
  norm_num

/-- Witness for C6: a fresh square-wave oscillator of each kind at 44100 Hz
with base frequency 440 (effective frequency 440, at most a quarter of the
sample rate) returns the raw waveform scaled by the volume only. -/
theorem C6_high_frequency_fade_witness :
    (¬ (440 : ℚ) * trEval.pow2Q ((Audio.Oscillator.new trEval WaveType.Square 44100).detune
        / 12) > 44100 / 4) ∧
    ((Audio.Oscillator.new trEval WaveType.Square 44100).get_sample trEval 440 44100).1 =
      waveform trEval (Audio.Oscillator.new trEval WaveType.Square 44100).wave_type
        (Audio.Oscillator.new trEval WaveType.Square 44100).phase
        ((Audio.Oscillator.new trEval WaveType.Square 44100).phase / (2 * trEval.piQ))
        (440 * trEval.pow2Q ((Audio.Oscillator.new trEval WaveType.Square 44100).detune / 12)
          / 44100) *
        (Audio.Oscillator.new trEval WaveType.Square 44100).volume :=
  ⟨by norm_num [trEval, Audio.Oscillator.new],
    (C6_high_frequency_fade trEval (Audio.Oscillator.new trEval WaveType.Square 44100)
        (Structs.Oscillator.new trEval WaveType.Square 44100) 440 440 44100 44100).2.1
      (by norm_num [trEval, Audio.Oscillator.new])⟩

/-- C6 counterexample: at effective frequency 3/2 with sample rate 4 (so
`f > sr/4`), the `structs::note` oscillator returns the raw square sample
scaled by fade and volume but NOT filtered: the returned value differs from
the claim's filter-processed value, because the filter coefficient alpha is
strictly below 1 and the raw sample is nonzero. -/
theorem C6_counterexample :
    ((3/2 : ℚ) * trEval.pow2Q (oscC6.detune / 12) > 4 / 4) ∧
    (oscC6.get_sample trEval (3/2) 4).1 ≠
      (oscC6.filter.process (waveform trEval oscC6.wave_type oscC6.phase
          (oscC6.phase / (2 * trEval.piQ)) ((3/2 : ℚ) * trEval.pow2Q (oscC6.detune / 12)
            / 4))).1 *
        (1 - min (((3/2 : ℚ) * trEval.pow2Q (oscC6.detune / 12) - 4 / 4) / ((4 : ℚ) / 4)) 1) *
        oscC6.volume := by
  constructor
  · norm_num [trEval, oscC6, Structs.Oscillator.new]
  · norm_num [oscC6, trEval, piF32, Structs.Oscillator.new, Structs.Oscillator.get_sample,
      LowPassFilter.new, LowPassFilter.process, waveform, get_bandlimited_square, poly_blep,
      fmodOne, advance_phase, OVERSAMPLING, min_def]

end RustSynth
